import Mathlib

/-!
Verification of the routing / fallback / streaming core of the
Replit-tgBot repository, shallowly embedded in Lean 4.

Source files embedded here:
  * `src/router/hybrid_router.py`  — `HybridRouter` (strategy selection,
    failure counters, escalation in `send_message`).
  * `src/api/websocket_client.py`  — `ReplitWebSocketClient` (pending
    response registry, inbound message processing, `wait_for_response`,
    reconnect backoff, message-id generation).
  * `src/api/direct_api_client.py` — `ReplitDirectAPIClient` (callback
    registry, inbound message processing, `wait_for_response`).
  * `src/auth/token_manager.py`    — `TokenManager` (encrypted credential
    store; the mapping semantics of store/get/delete/load).

Modelling conventions: Python dicts keyed by strings become association
lists with dict semantics (`assocSet` replaces in place, `assocErase`
removes the key); wall-clock timestamps (`created_at`, `updated_at`,
`stored_at`) are passed in as explicit naturals where they matter and
elided where no claim depends on them; network and file I/O outcomes are
environment parameters (e.g. `ApiResult`, `TokensFile`); logging calls
are elided.  Object-reference fields such as `self.direct_client` are
modelled as Booleans recording whether the reference is set (and, for
the WebSocket client inside the router, connected), which is all the
router's control flow inspects.
-/

/-- Association-list lookup with Python-dict key semantics: the first
binding of the key wins (our update keeps at most one binding per key). -/
def assocFind {β : Type} (k : String) : List (String × β) → Option β
  | [] => none
  | (k', v) :: t => if k' = k then some v else assocFind k t

/-- Python-dict assignment `d[k] = v`: replace the binding in place if the
key exists, otherwise append, preserving insertion order. -/
def assocSet {β : Type} (k : String) (v : β) : List (String × β) → List (String × β)
  | [] => [(k, v)]
  | (k', v') :: t => if k' = k then (k, v) :: t else (k', v') :: assocSet k v t

/-- Python-dict deletion `del d[k]`. -/
def assocErase {β : Type} (k : String) (l : List (String × β)) : List (String × β) :=
  l.filter (fun p => p.1 != k)

/-- A dict modelled as an association list has each key at most once. -/
def keysNodup {β : Type} (l : List (String × β)) : Prop :=
  (l.map Prod.fst).Nodup

instance {β : Type} (l : List (String × β)) : Decidable (keysNodup l) := by
  unfold keysNodup; infer_instance

theorem assocFind_set_same {β : Type} (k : String) (v : β) (l : List (String × β)) :
    assocFind k (assocSet k v l) = some v := by
  induction l with
  | nil => simp [assocSet, assocFind]
  | cons p t ih =>
    obtain ⟨k', v'⟩ := p
    by_cases h : k' = k
    · simp [assocSet, h, assocFind]
    · simp [assocSet, h, assocFind, ih]

theorem assocFind_set_other {β : Type} (k k' : String) (v : β) (l : List (String × β))
    (h : k' ≠ k) : assocFind k' (assocSet k v l) = assocFind k' l := by
  have hne : k ≠ k' := fun e => h e.symm
  induction l with
  | nil => simp [assocSet, assocFind, hne]
  | cons p t ih =>
    obtain ⟨k₀, v₀⟩ := p
    by_cases h₀ : k₀ = k
    · subst h₀
      simp [assocSet, assocFind, hne]
    · simp [assocSet, h₀, assocFind, ih]

theorem assocFind_erase_same {β : Type} (k : String) (l : List (String × β)) :
    assocFind k (assocErase k l) = none := by
  induction l with
  | nil => simp [assocErase, assocFind]
  | cons p t ih =>
    obtain ⟨k', v'⟩ := p
    by_cases h : k' = k
    · simpa [assocErase, h, assocFind] using ih
    · simpa [assocErase, assocFind, h] using ih

theorem mem_keys_assocSet {β : Type} (k x : String) (v : β) (l : List (String × β))
    (hx : x ∈ (assocSet k v l).map Prod.fst) : x = k ∨ x ∈ l.map Prod.fst := by
  induction l with
  | nil => simpa [assocSet] using hx
  | cons p t ih =>
    obtain ⟨k', v'⟩ := p
    by_cases h : k' = k
    · subst h
      simpa [assocSet] using hx
    · simp only [assocSet, h, if_false, List.map_cons, List.mem_cons] at hx
      rcases hx with hx | hx
      · right; simp [hx]
      · rcases ih hx with h₁ | h₁
        · left; exact h₁
        · right; simp [h₁]

theorem keysNodup_assocSet {β : Type} (k : String) (v : β) (l : List (String × β))
    (h : keysNodup l) : keysNodup (assocSet k v l) := by
  induction l with
  | nil => simp [assocSet, keysNodup]
  | cons p t ih =>
    obtain ⟨k', v'⟩ := p
    unfold keysNodup at h
    simp only [List.map_cons, List.nodup_cons] at h
    by_cases hk : k' = k
    · subst hk
      unfold keysNodup
      simpa [assocSet] using h
    · have ht := ih h.2
      unfold keysNodup at ht ⊢
      simp only [assocSet, hk, if_false, List.map_cons, List.nodup_cons]
      refine ⟨?_, ht⟩
      intro hmem
      rcases mem_keys_assocSet k k' v t hmem with h₁ | h₁
      · exact hk h₁
      · exact h.1 h₁

/-! ## Router model (`src/router/hybrid_router.py`) -/

/-- `RouterMethod` enum from `hybrid_router.py`. -/
inductive RouterMethod where
  | DIRECT_API
  | WEBSOCKET_API
  | BROWSER_AUTOMATION
  | AUTO
deriving DecidableEq, Repr

/-- The mutable state of a `HybridRouter` instance that its control flow
reads and writes.  Client-object fields (`direct_client`, `ws_client`,
`browser_client`) are Booleans: whether the reference is set to a usable
client (for `browser_client`, whether it is set and `initialized`, which
is the conjunction `_init_browser` tests). -/
structure RouterState where
  method : RouterMethod
  directClient : Bool
  wsClient : Bool
  browserClient : Bool
  lastMethodUsed : Option RouterMethod
  directApiFailures : Nat
  maxDirectApiFailures : Nat
  websocketFailures : Nat
  maxWebsocketFailures : Nat
  browserFailures : Nat
  maxBrowserFailures : Nat
  successfulApiCalls : Nat
  totalApiCalls : Nat
deriving DecidableEq, Repr

/-- A freshly constructed router (`HybridRouter.__init__`): no clients,
all failure counters 0, thresholds 3, statistics 0. -/
def routerInit (method : RouterMethod) : RouterState :=
  { method := method
    directClient := false
    wsClient := false
    browserClient := false
    lastMethodUsed := none
    directApiFailures := 0
    maxDirectApiFailures := 3
    websocketFailures := 0
    maxWebsocketFailures := 3
    browserFailures := 0
    maxBrowserFailures := 3
    successfulApiCalls := 0
    totalApiCalls := 0 }

/-- `HybridRouter._determine_method` (lines 161-198).  Pure except for the
all-thresholds-exceeded branch, which zeroes the three counters; hence the
result is the updated state paired with the chosen method. -/
def determineMethod (s : RouterState) : RouterState × RouterMethod :=
  if s.method ≠ RouterMethod.AUTO then (s, s.method)
  else if s.directClient = true ∧ 0 < s.successfulApiCalls ∧
      s.directApiFailures < s.maxDirectApiFailures then
    (s, RouterMethod.DIRECT_API)
  else if s.wsClient = true ∧ 0 < s.successfulApiCalls ∧
      s.websocketFailures < s.maxWebsocketFailures then
    (s, RouterMethod.WEBSOCKET_API)
  else if s.directApiFailures < s.maxDirectApiFailures then
    (s, RouterMethod.DIRECT_API)
  else if s.websocketFailures < s.maxWebsocketFailures then
    (s, RouterMethod.WEBSOCKET_API)
  else if s.browserFailures < s.maxBrowserFailures then
    (s, RouterMethod.BROWSER_AUTOMATION)
  else
    ({ s with directApiFailures := 0, websocketFailures := 0, browserFailures := 0 },
      RouterMethod.DIRECT_API)

/-- The needle occurs as a contiguous subsequence starting at some
position of the haystack. -/
def containsSeq (needle : List Char) : List Char → Bool
  | [] => needle.isPrefixOf []
  | c :: t => needle.isPrefixOf (c :: t) || containsSeq needle t

/-- True when a needle occurs as a substring of the haystack, Python's
`needle in hay` for strings. -/
def strContains (needle hay : String) : Bool :=
  containsSeq needle.toList hay.toList

/-- Outcome of a `_init_direct_api` / `_init_websocket_api` /
`_init_browser` attempt when the client is not already usable: `true`
models a successful construction + connect, `false` models a falsy
`connect()` result or an exception (both increment the failure counter). -/
def initDirectApi (s : RouterState) (ok : Bool) : RouterState × Bool :=
  if s.directClient then (s, true)
  else if ok then ({ s with directClient := true }, true)
  else ({ s with directApiFailures := s.directApiFailures + 1, directClient := false }, false)

/-- `HybridRouter._init_websocket_api`: returns `true` if the client is
set and connected, otherwise constructs and connects a fresh one. -/
def initWebsocketApi (s : RouterState) (ok : Bool) : RouterState × Bool :=
  if s.wsClient then (s, true)
  else if ok then ({ s with wsClient := true }, true)
  else ({ s with websocketFailures := s.websocketFailures + 1, wsClient := false }, false)

/-- `HybridRouter._init_browser`: on a failed `start()` (or exception)
the failure counter is incremented and `browser_client` is left in a
not-`initialized` state (auth-data extraction on success is external I/O
through the token manager and does not affect the routed state). -/
def initBrowser (s : RouterState) (ok : Bool) : RouterState × Bool :=
  if s.browserClient then (s, true)
  else if ok then ({ s with browserClient := true }, true)
  else ({ s with browserFailures := s.browserFailures + 1 }, false)

/-- What an API strategy's `send_message` + `wait_for_response` pair did
within `HybridRouter.send_message`, once the client was initialized:
an exception escaped the pair, `send_message` returned a falsy id, or
an id was obtained and `wait_for_response` returned `r` (with `none`
covering both timeout and connection loss). -/
inductive ApiResult where
  | exn
  | noId
  | got (r : Option String)
deriving DecidableEq, Repr

/-- Outcome of `browser_client.send_message` in the browser block:
either it raised (message propagates to the outer handler) or it
returned `r`. -/
inductive BrowserOutcome where
  | exn (msg : String)
  | res (r : Option String)
deriving DecidableEq, Repr

/-- Environment for one `HybridRouter.send_message` call: the outcome
each strategy would produce if attempted. -/
structure SendEnv where
  directInitOk : Bool
  directRes : ApiResult
  wsInitOk : Bool
  wsRes : ApiResult
  browserInitOk : Bool
  browserOut : BrowserOutcome
deriving DecidableEq, Repr

/-- Python `str(x)` on an `Optional[str]`, as used by the f-string in
`f"Browser automation failed: {response}"`. -/
def pyShowOptStr : Option String → String
  | none => "None"
  | some t => t

/-- Success test on the browser response (line 286):
`response and "Error:" not in response`. -/
def browserSuccess : Option String → Bool
  | none => false
  | some t => ¬t = "" && !strContains "Error:" t

/-- The direct-API block of `HybridRouter.send_message` (lines 220-246):
initialize, send, wait; on a truthy response reset the failure counter,
bump `successful_api_calls` and return it; on an exception increment the
counter; in every non-success case fall through (`none`) to escalation. -/
def directAttempt (s : RouterState) (ok : Bool) (res : ApiResult) :
    RouterState × Option String :=
  let p := initDirectApi s ok
  if p.2 then
    match res with
    | ApiResult.exn => ({ p.1 with directApiFailures := p.1.directApiFailures + 1 }, none)
    | ApiResult.noId => (p.1, none)
    | ApiResult.got none => (p.1, none)
    | ApiResult.got (some r) =>
      if r = "" then (p.1, none)
      else
        ({ p.1 with
            directApiFailures := 0
            successfulApiCalls := p.1.successfulApiCalls + 1 }, some r)
  else (p.1, none)

/-- The WebSocket block of `HybridRouter.send_message` (lines 248-273),
structurally identical to the direct-API block on the WebSocket fields. -/
def wsAttempt (s : RouterState) (ok : Bool) (res : ApiResult) :
    RouterState × Option String :=
  let p := initWebsocketApi s ok
  if p.2 then
    match res with
    | ApiResult.exn => ({ p.1 with websocketFailures := p.1.websocketFailures + 1 }, none)
    | ApiResult.noId => (p.1, none)
    | ApiResult.got none => (p.1, none)
    | ApiResult.got (some r) =>
      if r = "" then (p.1, none)
      else
        ({ p.1 with
            websocketFailures := 0
            successfulApiCalls := p.1.successfulApiCalls + 1 }, some r)
  else (p.1, none)

/-- The browser block of `HybridRouter.send_message` (lines 276-299)
together with the outer `except` handler (lines 304-307): a failed
initialization raises and surfaces as an error string; a successful
response resets `browser_failures` (auth-data persistence elided as
external I/O) and is returned; anything else increments the counter and
surfaces as an error string.  Note the browser success path does not
touch `successful_api_calls`. -/
def browserPhase (s : RouterState) (ok : Bool) (out : BrowserOutcome) :
    RouterState × String :=
  let p := initBrowser s ok
  if p.2 then
    match out with
    | BrowserOutcome.exn msg => (p.1, "Error: " ++ msg)
    | BrowserOutcome.res r =>
      if browserSuccess r then
        ({ p.1 with browserFailures := 0 }, pyShowOptStr r)
      else
        ({ p.1 with browserFailures := p.1.browserFailures + 1 },
          "Error: Browser automation failed: " ++ pyShowOptStr r)
  else (p.1, "Error: Failed to initialize browser client")

/-- The WebSocket block followed, on failure, by escalation to the
browser block (lines 270-273 set `method`/`last_method_used` before the
browser block runs). -/
def wsPhase (s : RouterState) (env : SendEnv) : RouterState × String :=
  let p := wsAttempt s env.wsInitOk env.wsRes
  match p.2 with
  | some r => (p.1, r)
  | none =>
    browserPhase { p.1 with lastMethodUsed := some RouterMethod.BROWSER_AUTOMATION }
      env.browserInitOk env.browserOut

/-- `HybridRouter.send_message` (lines 200-307): choose a method, record
it and bump `total_api_calls`, then run the strategy blocks in order with
fall-through escalation.  The `AUTO` case is the dead fall-through at
line 302 (`_determine_method` never returns `AUTO`). -/
def sendMessage (s0 : RouterState) (env : SendEnv) : RouterState × String :=
  let q := determineMethod s0
  let s := { q.1 with lastMethodUsed := some q.2, totalApiCalls := q.1.totalApiCalls + 1 }
  match q.2 with
  | RouterMethod.DIRECT_API =>
    let p := directAttempt s env.directInitOk env.directRes
    match p.2 with
    | some r => (p.1, r)
    | none =>
      wsPhase { p.1 with lastMethodUsed := some RouterMethod.WEBSOCKET_API } env
  | RouterMethod.WEBSOCKET_API => wsPhase s env
  | RouterMethod.BROWSER_AUTOMATION => browserPhase s env.browserInitOk env.browserOut
  | RouterMethod.AUTO => (s, "Failed to get a response from Replit Agent through any method.")

/-- Instrumented copy of `sendMessage` that additionally records, in
order, which strategy blocks were entered during the call.  Used to state
that no strategy is attempted twice within one call. -/
def sendMessageT (s0 : RouterState) (env : SendEnv) :
    RouterState × String × List RouterMethod :=
  let q := determineMethod s0
  let s := { q.1 with lastMethodUsed := some q.2, totalApiCalls := q.1.totalApiCalls + 1 }
  match q.2 with
  | RouterMethod.DIRECT_API =>
    let p := directAttempt s env.directInitOk env.directRes
    match p.2 with
    | some r => (p.1, r, [RouterMethod.DIRECT_API])
    | none =>
      let w := wsPhase { p.1 with lastMethodUsed := some RouterMethod.WEBSOCKET_API } env
      let ws2 := wsAttempt { p.1 with lastMethodUsed := some RouterMethod.WEBSOCKET_API }
        env.wsInitOk env.wsRes
      match ws2.2 with
      | some _ => (w.1, w.2, [RouterMethod.DIRECT_API, RouterMethod.WEBSOCKET_API])
      | none => (w.1, w.2,
          [RouterMethod.DIRECT_API, RouterMethod.WEBSOCKET_API,
            RouterMethod.BROWSER_AUTOMATION])
  | RouterMethod.WEBSOCKET_API =>
    let w := wsPhase s env
    let ws2 := wsAttempt s env.wsInitOk env.wsRes
    match ws2.2 with
    | some _ => (w.1, w.2, [RouterMethod.WEBSOCKET_API])
    | none => (w.1, w.2, [RouterMethod.WEBSOCKET_API, RouterMethod.BROWSER_AUTOMATION])
  | RouterMethod.BROWSER_AUTOMATION =>
    let b := browserPhase s env.browserInitOk env.browserOut
    (b.1, b.2, [RouterMethod.BROWSER_AUTOMATION])
  | RouterMethod.AUTO =>
    (s, "Failed to get a response from Replit Agent through any method.", [])

/-! ## Router theorems (claims C1-C4) -/

/-- A router state with every failure counter at its threshold. -/
def c1State : RouterState :=
  { routerInit RouterMethod.AUTO with
      directApiFailures := 3
      websocketFailures := 3
      browserFailures := 3 }

/-- C1: with no pinned strategy, whenever all three per-strategy failure
counters are at or above their thresholds, `_determine_method` zeroes all
three counters and returns the first strategy in priority order
(`DIRECT_API`); consequently the next `send_message` call attempts the
first strategy first. -/
theorem c1_breaker_self_heals (s : RouterState)
    (hm : s.method = RouterMethod.AUTO)
    (h1 : s.maxDirectApiFailures ≤ s.directApiFailures)
    (h2 : s.maxWebsocketFailures ≤ s.websocketFailures)
    (h3 : s.maxBrowserFailures ≤ s.browserFailures) :
    determineMethod s =
      ({ s with directApiFailures := 0, websocketFailures := 0, browserFailures := 0 },
        RouterMethod.DIRECT_API) ∧
    ∀ env : SendEnv,
      ((sendMessageT s env).2.2).head? = some RouterMethod.DIRECT_API := by
  have nd : ¬ s.directApiFailures < s.maxDirectApiFailures := by omega
  have nw : ¬ s.websocketFailures < s.maxWebsocketFailures := by omega
  have nb : ¬ s.browserFailures < s.maxBrowserFailures := by omega
  have hdet : determineMethod s =
      ({ s with directApiFailures := 0, websocketFailures := 0, browserFailures := 0 },
        RouterMethod.DIRECT_API) := by
    simp [determineMethod, hm, nd, nw, nb]
  refine ⟨hdet, ?_⟩
  intro env
  simp only [sendMessageT, hdet]
  split
  · rfl
  · split
    · rfl
    · rfl

/-- Witness for C1 at a concrete state: all counters equal the threshold 3. -/
theorem c1_breaker_self_heals_witness :
    c1State.method = RouterMethod.AUTO ∧
    c1State.maxDirectApiFailures ≤ c1State.directApiFailures ∧
    c1State.maxWebsocketFailures ≤ c1State.websocketFailures ∧
    c1State.maxBrowserFailures ≤ c1State.browserFailures ∧
    (determineMethod c1State =
      ({ c1State with directApiFailures := 0, websocketFailures := 0, browserFailures := 0 },
        RouterMethod.DIRECT_API) ∧
     ∀ env : SendEnv,
       ((sendMessageT c1State env).2.2).head? = some RouterMethod.DIRECT_API) :=
  ⟨rfl, by decide, by decide, by decide,
    c1_breaker_self_heals c1State rfl (by decide) (by decide) (by decide)⟩

/-- A baseline environment in which every strategy would fail. -/
def envIdle : SendEnv :=
  { directInitOk := false
    directRes := ApiResult.noId
    wsInitOk := false
    wsRes := ApiResult.noId
    browserInitOk := false
    browserOut := BrowserOutcome.res none }

/-- A router pinned to browser automation whose browser client is up. -/
def c2State : RouterState :=
  { routerInit RouterMethod.BROWSER_AUTOMATION with browserClient := true }

/-- Environment in which the browser strategy succeeds with "done". -/
def c2Env : SendEnv :=
  { envIdle with browserInitOk := true, browserOut := BrowserOutcome.res (some "done") }

/-- C2 counterexample: a successful browser-automation send returns the
response and resets `browser_failures`, but `successful_api_calls` stays
at 0 instead of being incremented as the claim states for all three
strategies. -/
theorem c2_counterexample :
    (sendMessage c2State c2Env).2 = "done" ∧
    (sendMessage c2State c2Env).1.browserFailures = 0 ∧
    (sendMessage c2State c2Env).1.successfulApiCalls = 0 ∧
    ¬ (sendMessage c2State c2Env).1.successfulApiCalls =
        c2State.successfulApiCalls + 1 := by
  decide

/-- `_determine_method` never changes the success/total statistics: only
failure counters are written (in the all-exceeded reset branch). -/
theorem determineMethod_stats (s : RouterState) :
    (determineMethod s).1.successfulApiCalls = s.successfulApiCalls ∧
    (determineMethod s).1.totalApiCalls = s.totalApiCalls := by
  unfold determineMethod
  split
  · exact ⟨rfl, rfl⟩
  · split
    · exact ⟨rfl, rfl⟩
    · split
      · exact ⟨rfl, rfl⟩
      · split
        · exact ⟨rfl, rfl⟩
        · split
          · exact ⟨rfl, rfl⟩
          · split
            · exact ⟨rfl, rfl⟩
            · exact ⟨rfl, rfl⟩

theorem initDirectApi_stats (t : RouterState) (ok : Bool) :
    (initDirectApi t ok).1.successfulApiCalls = t.successfulApiCalls := by
  unfold initDirectApi
  split
  · rfl
  · split
    · rfl
    · rfl

theorem initWebsocketApi_stats (t : RouterState) (ok : Bool) :
    (initWebsocketApi t ok).1.successfulApiCalls = t.successfulApiCalls := by
  unfold initWebsocketApi
  split
  · rfl
  · split
    · rfl
    · rfl

theorem initBrowser_stats (t : RouterState) (ok : Bool) :
    (initBrowser t ok).1.successfulApiCalls = t.successfulApiCalls := by
  unfold initBrowser
  split
  · rfl
  · split
    · rfl
    · rfl

/-- A successful direct-API attempt zeroes `direct_api_failures` and
increments `successful_api_calls` by one, whatever the initialization
path (client already up or freshly connected). -/
theorem directAttempt_success (t : RouterState) (ok : Bool) (res : ApiResult) (r : String)
    (h : (directAttempt t ok res).2 = some r) :
    (directAttempt t ok res).1.directApiFailures = 0 ∧
    (directAttempt t ok res).1.successfulApiCalls = t.successfulApiCalls + 1 := by
  have hs := initDirectApi_stats t ok
  unfold directAttempt at h ⊢
  by_cases hi : (initDirectApi t ok).2 = true
  · simp only [hi, if_true] at h ⊢
    cases res with
    | exn => simp at h
    | noId => simp at h
    | got o =>
      cases o with
      | none => simp at h
      | some v =>
        by_cases hv : v = ""
        · simp [hv] at h
        · simp only [hv, if_false] at h ⊢
          refine ⟨by trivial, ?_⟩
          show (initDirectApi t ok).1.successfulApiCalls + 1 = t.successfulApiCalls + 1
          rw [hs]
  · simp [hi] at h

/-- A failed direct-API attempt never touches `successful_api_calls`. -/
theorem directAttempt_fail (t : RouterState) (ok : Bool) (res : ApiResult)
    (h : (directAttempt t ok res).2 = none) :
    (directAttempt t ok res).1.successfulApiCalls = t.successfulApiCalls := by
  have hs := initDirectApi_stats t ok
  unfold directAttempt at h ⊢
  by_cases hi : (initDirectApi t ok).2 = true
  · simp only [hi, if_true] at h ⊢
    cases res with
    | exn => exact hs
    | noId => exact hs
    | got o =>
      cases o with
      | none => exact hs
      | some v =>
        by_cases hv : v = ""
        · simp only [hv, if_true]
          exact hs
        · simp [hv] at h
  · simp only [hi, if_false]
    exact hs

/-- A successful WebSocket attempt zeroes `websocket_failures` and
increments `successful_api_calls` by one, whatever the initialization
path. -/
theorem wsAttempt_success (t : RouterState) (ok : Bool) (res : ApiResult) (r : String)
    (h : (wsAttempt t ok res).2 = some r) :
    (wsAttempt t ok res).1.websocketFailures = 0 ∧
    (wsAttempt t ok res).1.successfulApiCalls = t.successfulApiCalls + 1 := by
  have hs := initWebsocketApi_stats t ok
  unfold wsAttempt at h ⊢
  by_cases hi : (initWebsocketApi t ok).2 = true
  · simp only [hi, if_true] at h ⊢
    cases res with
    | exn => simp at h
    | noId => simp at h
    | got o =>
      cases o with
      | none => simp at h
      | some v =>
        by_cases hv : v = ""
        · simp [hv] at h
        · simp only [hv, if_false] at h ⊢
          refine ⟨by trivial, ?_⟩
          show (initWebsocketApi t ok).1.successfulApiCalls + 1 = t.successfulApiCalls + 1
          rw [hs]
  · simp [hi] at h

/-- A failed WebSocket attempt never touches `successful_api_calls`. -/
theorem wsAttempt_fail (t : RouterState) (ok : Bool) (res : ApiResult)
    (h : (wsAttempt t ok res).2 = none) :
    (wsAttempt t ok res).1.successfulApiCalls = t.successfulApiCalls := by
  have hs := initWebsocketApi_stats t ok
  unfold wsAttempt at h ⊢
  by_cases hi : (initWebsocketApi t ok).2 = true
  · simp only [hi, if_true] at h ⊢
    cases res with
    | exn => exact hs
    | noId => exact hs
    | got o =>
      cases o with
      | none => exact hs
      | some v =>
        by_cases hv : v = ""
        · simp only [hv, if_true]
          exact hs
        · simp [hv] at h
  · simp only [hi, if_false]
    exact hs

/-- A successful browser block zeroes `browser_failures` and returns the
response verbatim. -/
theorem browserPhase_success (t : RouterState) (ok : Bool) (r : String)
    (hinit : (initBrowser t ok).2 = true) (hsucc : browserSuccess (some r) = true) :
    browserPhase t ok (BrowserOutcome.res (some r)) =
      ({ (initBrowser t ok).1 with browserFailures := 0 }, r) := by
  unfold browserPhase
  simp [hinit, hsucc, pyShowOptStr]

/-- The state after `send_message` chooses a method, records it in
`last_method_used` and bumps `total_api_calls` (lines 210-212). -/
def dispatchState (s : RouterState) : RouterState :=
  { (determineMethod s).1 with
      lastMethodUsed := some (determineMethod s).2
      totalApiCalls := (determineMethod s).1.totalApiCalls + 1 }

/-- The router state with which the WebSocket block of `send_message` is
entered, if it is entered at all: directly when selection chose it, or
after a failed direct-API block (lines 244-246 set `method` and
`last_method_used` before falling through). -/
def wsEntry (s : RouterState) (env : SendEnv) : Option RouterState :=
  match (determineMethod s).2 with
  | RouterMethod.WEBSOCKET_API => some (dispatchState s)
  | RouterMethod.DIRECT_API =>
    match (directAttempt (dispatchState s) env.directInitOk env.directRes).2 with
    | some _ => none
    | none =>
      some { (directAttempt (dispatchState s) env.directInitOk env.directRes).1 with
               lastMethodUsed := some RouterMethod.WEBSOCKET_API }
  | _ => none

/-- The router state with which the browser block of `send_message` is
entered, if it is entered at all: directly when selection chose it, or
after a failed WebSocket block (lines 271-273). -/
def browserEntry (s : RouterState) (env : SendEnv) : Option RouterState :=
  match wsEntry s env with
  | some t =>
    match (wsAttempt t env.wsInitOk env.wsRes).2 with
    | some _ => none
    | none =>
      some { (wsAttempt t env.wsInitOk env.wsRes).1 with
               lastMethodUsed := some RouterMethod.BROWSER_AUTOMATION }
  | none =>
    match (determineMethod s).2 with
    | RouterMethod.BROWSER_AUTOMATION => some (dispatchState s)
    | _ => none

/-- C2 (amended): in every `send_message` call — whatever the selection
policy chose and however the blocks were entered (directly, by
escalation, with a live client or a fresh initialization) — a successful
direct-API or WebSocket attempt resets that strategy's failure counter
to 0, increments `successful_api_calls` by one, and returns the response
immediately with no later strategy attempted; a successful browser block
resets `browser_failures` and returns the response immediately, but
leaves `successful_api_calls` unchanged. -/
theorem c2_success_bookkeeping (s : RouterState) (env : SendEnv) (r : String) :
    ((determineMethod s).2 = RouterMethod.DIRECT_API →
      (directAttempt (dispatchState s) env.directInitOk env.directRes).2 = some r →
      (sendMessageT s env).1.directApiFailures = 0 ∧
      (sendMessageT s env).1.successfulApiCalls = s.successfulApiCalls + 1 ∧
      (sendMessageT s env).2.1 = r ∧
      (sendMessageT s env).2.2 = [RouterMethod.DIRECT_API]) ∧
    (∀ t : RouterState, wsEntry s env = some t →
      (wsAttempt t env.wsInitOk env.wsRes).2 = some r →
      (sendMessageT s env).1.websocketFailures = 0 ∧
      (sendMessageT s env).1.successfulApiCalls = s.successfulApiCalls + 1 ∧
      (sendMessageT s env).2.1 = r ∧
      ((sendMessageT s env).2.2 = [RouterMethod.WEBSOCKET_API] ∨
        (sendMessageT s env).2.2 =
          [RouterMethod.DIRECT_API, RouterMethod.WEBSOCKET_API])) ∧
    (∀ t : RouterState, browserEntry s env = some t →
      (initBrowser t env.browserInitOk).2 = true →
      env.browserOut = BrowserOutcome.res (some r) →
      browserSuccess (some r) = true →
      (sendMessageT s env).1.browserFailures = 0 ∧
      (sendMessageT s env).1.successfulApiCalls = s.successfulApiCalls ∧
      (sendMessageT s env).2.1 = r ∧
      ((sendMessageT s env).2.2 = [RouterMethod.BROWSER_AUTOMATION] ∨
        (sendMessageT s env).2.2 =
          [RouterMethod.WEBSOCKET_API, RouterMethod.BROWSER_AUTOMATION] ∨
        (sendMessageT s env).2.2 =
          [RouterMethod.DIRECT_API, RouterMethod.WEBSOCKET_API,
            RouterMethod.BROWSER_AUTOMATION])) := by
  have hst := (determineMethod_stats s).1
  cases hm2 : (determineMethod s).2 with
  | DIRECT_API =>
    refine ⟨?_, ?_, ?_⟩
    · intro _ hsucc
      simp only [dispatchState, hm2] at hsucc
      have hb := directAttempt_success _ env.directInitOk env.directRes r hsucc
      simp only [sendMessageT, hm2, hsucc]
      refine ⟨hb.1, ?_, by trivial, by trivial⟩
      rw [hb.2]
      simp only [hst]
    · intro t hwse hsucc
      rcases hda0 : (directAttempt (dispatchState s) env.directInitOk env.directRes).2
        with _ | r₀
      · have hda := hda0
        simp only [dispatchState, hm2] at hda
        have hdfail := directAttempt_fail (dispatchState s) env.directInitOk
          env.directRes hda0
        simp only [dispatchState, hm2] at hdfail
        simp only [wsEntry, dispatchState, hm2, hda] at hwse
        injection hwse with ht
        have hb := wsAttempt_success t env.wsInitOk env.wsRes r hsucc
        simp only [sendMessageT, hm2, hda]
        rw [ht]
        simp only [wsPhase, hsucc]
        refine ⟨hb.1, ?_, by trivial, by simp⟩
        rw [hb.2, ← ht]
        simp only [hdfail]
        simp only [hst]
      · have hda := hda0
        simp only [dispatchState, hm2] at hda
        simp only [wsEntry, dispatchState, hm2, hda] at hwse
        exact Option.noConfusion hwse
    · intro t hbe hinit hout hsucc
      rcases hda0 : (directAttempt (dispatchState s) env.directInitOk env.directRes).2
        with _ | r₀
      · have hda := hda0
        simp only [dispatchState, hm2] at hda
        have hdfail := directAttempt_fail (dispatchState s) env.directInitOk
          env.directRes hda0
        simp only [dispatchState, hm2] at hdfail
        simp only [browserEntry, wsEntry, dispatchState, hm2, hda] at hbe
        split at hbe
        · exact Option.noConfusion hbe
        · rename_i hwa
          injection hbe with ht
          have hwfail := wsAttempt_fail _ env.wsInitOk env.wsRes hwa
          have hbp := browserPhase_success t env.browserInitOk r hinit hsucc
          simp only [sendMessageT, hm2, hda, wsPhase, hwa]
          rw [ht, hout, hbp]
          refine ⟨by trivial, ?_, by trivial, by simp⟩
          simp only [initBrowser_stats]
          rw [← ht]
          simp only [hwfail]
          simp only [hdfail]
          simp only [hst]
      · have hda := hda0
        simp only [dispatchState, hm2] at hda
        simp only [browserEntry, wsEntry, dispatchState, hm2, hda] at hbe
        exact Option.noConfusion hbe
  | WEBSOCKET_API =>
    refine ⟨?_, ?_, ?_⟩
    · intro hm _
      exact absurd hm (by decide)
    · intro t hwse hsucc
      simp only [wsEntry, dispatchState, hm2] at hwse
      injection hwse with ht
      have hb := wsAttempt_success t env.wsInitOk env.wsRes r hsucc
      simp only [sendMessageT, hm2]
      rw [ht]
      simp only [wsPhase, hsucc]
      refine ⟨hb.1, ?_, by trivial, by simp⟩
      rw [hb.2, ← ht]
      simp only [hst]
    · intro t hbe hinit hout hsucc
      rcases hwa0 : (wsAttempt (dispatchState s) env.wsInitOk env.wsRes).2 with _ | r₁
      · have hwa := hwa0
        simp only [dispatchState, hm2] at hwa
        have hwfail := wsAttempt_fail (dispatchState s) env.wsInitOk env.wsRes hwa0
        simp only [dispatchState, hm2] at hwfail
        simp only [browserEntry, wsEntry, dispatchState, hm2, hwa] at hbe
        injection hbe with ht
        have hbp := browserPhase_success t env.browserInitOk r hinit hsucc
        simp only [sendMessageT, hm2, wsPhase, hwa]
        rw [ht, hout, hbp]
        refine ⟨by trivial, ?_, by trivial, by simp⟩
        simp only [initBrowser_stats]
        rw [← ht]
        simp only [hwfail]
        simp only [hst]
      · have hwa := hwa0
        simp only [dispatchState, hm2] at hwa
        simp only [browserEntry, wsEntry, dispatchState, hm2, hwa] at hbe
        exact Option.noConfusion hbe
  | BROWSER_AUTOMATION =>
    refine ⟨?_, ?_, ?_⟩
    · intro hm _
      exact absurd hm (by decide)
    · intro t hwse _
      simp only [wsEntry, hm2] at hwse
      exact Option.noConfusion hwse
    · intro t hbe hinit hout hsucc
      simp only [browserEntry, wsEntry, dispatchState, hm2] at hbe
      injection hbe with ht
      have hbp := browserPhase_success t env.browserInitOk r hinit hsucc
      simp only [sendMessageT, hm2]
      rw [ht, hout, hbp]
      refine ⟨by trivial, ?_, by trivial, by simp⟩
      simp only [initBrowser_stats]
      rw [← ht]
      simp only [hst]
  | AUTO =>
    refine ⟨?_, ?_, ?_⟩
    · intro hm _
      exact absurd hm (by decide)
    · intro t hwse _
      simp only [wsEntry, hm2] at hwse
      exact Option.noConfusion hwse
    · intro t hbe _ _ _
      simp only [browserEntry, wsEntry, hm2] at hbe
      exact Option.noConfusion hbe

/-- Environment for the C2 witness: the direct API fails to initialize,
then the freshly initialized WebSocket strategy succeeds with "hi". -/
def c2WitEnv : SendEnv :=
  { envIdle with wsInitOk := true, wsRes := ApiResult.got (some "hi") }

/-- The state with which the WebSocket block is entered in the C2
witness call: dispatch bookkeeping plus the failed direct init. -/
def c2WitEntry : RouterState :=
  { routerInit RouterMethod.AUTO with
      lastMethodUsed := some RouterMethod.WEBSOCKET_API
      totalApiCalls := 1
      directApiFailures := 1 }

/-- Witness for C2 (amended): a fresh automatically-routed router whose
direct strategy fails to initialize and whose WebSocket strategy then
succeeds after a fresh connect — an escalated, non-pinned success. -/
theorem c2_success_bookkeeping_witness :
    wsEntry (routerInit RouterMethod.AUTO) c2WitEnv = some c2WitEntry ∧
    (wsAttempt c2WitEntry c2WitEnv.wsInitOk c2WitEnv.wsRes).2 = some "hi" ∧
    ((sendMessageT (routerInit RouterMethod.AUTO) c2WitEnv).1.websocketFailures = 0 ∧
      (sendMessageT (routerInit RouterMethod.AUTO) c2WitEnv).1.successfulApiCalls =
        (routerInit RouterMethod.AUTO).successfulApiCalls + 1 ∧
      (sendMessageT (routerInit RouterMethod.AUTO) c2WitEnv).2.1 = "hi" ∧
      ((sendMessageT (routerInit RouterMethod.AUTO) c2WitEnv).2.2 =
          [RouterMethod.WEBSOCKET_API] ∨
        (sendMessageT (routerInit RouterMethod.AUTO) c2WitEnv).2.2 =
          [RouterMethod.DIRECT_API, RouterMethod.WEBSOCKET_API])) :=
  ⟨by decide, by decide,
    (c2_success_bookkeeping (routerInit RouterMethod.AUTO) c2WitEnv "hi").2.1
      c2WitEntry (by decide) (by decide)⟩

/-- A router pinned to the direct API whose direct client is up. -/
def c3State : RouterState :=
  { routerInit RouterMethod.DIRECT_API with directClient := true }

/-- Environment: the direct API times out (`wait_for_response` returns
`None`), then the WebSocket strategy succeeds. -/
def c3Env : SendEnv :=
  { envIdle with
      directInitOk := true
      directRes := ApiResult.got none
      wsInitOk := true
      wsRes := ApiResult.got (some "ok") }

/-- C3 counterexample: a direct-API timeout escalates to the WebSocket
strategy but leaves `direct_api_failures` unchanged, contradicting the
claim that every failure outcome increments the counter by one. -/
theorem c3_counterexample :
    (sendMessageT c3State c3Env).2.2 =
      [RouterMethod.DIRECT_API, RouterMethod.WEBSOCKET_API] ∧
    (sendMessageT c3State c3Env).1.directApiFailures = c3State.directApiFailures ∧
    ¬ (sendMessageT c3State c3Env).1.directApiFailures =
        c3State.directApiFailures + 1 := by
  decide

/-- C3 (amended): within one `send_message` call, an exception raised by
an initialized API strategy increments that strategy's failure counter by
exactly one and escalates; an empty/None message id, a timed-out (`None`)
response, or an empty-string response (falsy under `if response:`)
escalates to the next strategy without incrementing the counter; and the
strategies attempted form a subsequence of the fixed order, so no
strategy is ever invoked twice. -/
theorem c3_failure_accounting (s : RouterState) (env : SendEnv) (ok : Bool) :
    (s.directClient = true →
      (directAttempt s ok ApiResult.exn).1.directApiFailures = s.directApiFailures + 1 ∧
      (directAttempt s ok ApiResult.exn).2 = none ∧
      (directAttempt s ok ApiResult.noId).1.directApiFailures = s.directApiFailures ∧
      (directAttempt s ok ApiResult.noId).2 = none ∧
      (directAttempt s ok (ApiResult.got none)).1.directApiFailures = s.directApiFailures ∧
      (directAttempt s ok (ApiResult.got none)).2 = none ∧
      (directAttempt s ok (ApiResult.got (some ""))).1.directApiFailures =
        s.directApiFailures ∧
      (directAttempt s ok (ApiResult.got (some ""))).2 = none) ∧
    (s.wsClient = true →
      (wsAttempt s ok ApiResult.exn).1.websocketFailures = s.websocketFailures + 1 ∧
      (wsAttempt s ok ApiResult.exn).2 = none ∧
      (wsAttempt s ok ApiResult.noId).1.websocketFailures = s.websocketFailures ∧
      (wsAttempt s ok ApiResult.noId).2 = none ∧
      (wsAttempt s ok (ApiResult.got none)).1.websocketFailures = s.websocketFailures ∧
      (wsAttempt s ok (ApiResult.got none)).2 = none ∧
      (wsAttempt s ok (ApiResult.got (some ""))).1.websocketFailures =
        s.websocketFailures ∧
      (wsAttempt s ok (ApiResult.got (some ""))).2 = none) ∧
    List.Sublist (sendMessageT s env).2.2
      [RouterMethod.DIRECT_API, RouterMethod.WEBSOCKET_API,
        RouterMethod.BROWSER_AUTOMATION] := by
  refine ⟨?_, ?_, ?_⟩
  · intro hc
    simp [directAttempt, initDirectApi, hc]
  · intro hc
    simp [wsAttempt, initWebsocketApi, hc]
  · have hD : List.Sublist [RouterMethod.DIRECT_API]
        [RouterMethod.DIRECT_API, RouterMethod.WEBSOCKET_API,
          RouterMethod.BROWSER_AUTOMATION] := by decide
    have hDW : List.Sublist [RouterMethod.DIRECT_API, RouterMethod.WEBSOCKET_API]
        [RouterMethod.DIRECT_API, RouterMethod.WEBSOCKET_API,
          RouterMethod.BROWSER_AUTOMATION] := by decide
    have hDWB : List.Sublist
        [RouterMethod.DIRECT_API, RouterMethod.WEBSOCKET_API,
          RouterMethod.BROWSER_AUTOMATION]
        [RouterMethod.DIRECT_API, RouterMethod.WEBSOCKET_API,
          RouterMethod.BROWSER_AUTOMATION] := by decide
    have hW : List.Sublist [RouterMethod.WEBSOCKET_API]
        [RouterMethod.DIRECT_API, RouterMethod.WEBSOCKET_API,
          RouterMethod.BROWSER_AUTOMATION] := by decide
    have hWB : List.Sublist [RouterMethod.WEBSOCKET_API, RouterMethod.BROWSER_AUTOMATION]
        [RouterMethod.DIRECT_API, RouterMethod.WEBSOCKET_API,
          RouterMethod.BROWSER_AUTOMATION] := by decide
    have hB : List.Sublist [RouterMethod.BROWSER_AUTOMATION]
        [RouterMethod.DIRECT_API, RouterMethod.WEBSOCKET_API,
          RouterMethod.BROWSER_AUTOMATION] := by decide
    have hN : List.Sublist ([] : List RouterMethod)
        [RouterMethod.DIRECT_API, RouterMethod.WEBSOCKET_API,
          RouterMethod.BROWSER_AUTOMATION] := by decide
    rcases hq : determineMethod s with ⟨s', m⟩
    cases m with
    | DIRECT_API =>
      simp only [sendMessageT, hq]
      split
      · exact hD
      · split
        · exact hDW
        · exact hDWB
    | WEBSOCKET_API =>
      simp only [sendMessageT, hq]
      split
      · exact hW
      · exact hWB
    | BROWSER_AUTOMATION =>
      simp only [sendMessageT, hq]
      exact hB
    | AUTO =>
      simp only [sendMessageT, hq]
      exact hN

/-- Router with both API clients up, for the C3 witness. -/
def c3WitState : RouterState :=
  { routerInit RouterMethod.DIRECT_API with directClient := true, wsClient := true }

/-- Witness for C3 (amended) at concrete inputs. -/
theorem c3_failure_accounting_witness :
    c3WitState.directClient = true ∧
    c3WitState.wsClient = true ∧
    ((directAttempt c3WitState true ApiResult.exn).1.directApiFailures =
        c3WitState.directApiFailures + 1 ∧
      (directAttempt c3WitState true ApiResult.exn).2 = none ∧
      (directAttempt c3WitState true ApiResult.noId).1.directApiFailures =
        c3WitState.directApiFailures ∧
      (directAttempt c3WitState true ApiResult.noId).2 = none ∧
      (directAttempt c3WitState true (ApiResult.got none)).1.directApiFailures =
        c3WitState.directApiFailures ∧
      (directAttempt c3WitState true (ApiResult.got none)).2 = none ∧
      (directAttempt c3WitState true (ApiResult.got (some ""))).1.directApiFailures =
        c3WitState.directApiFailures ∧
      (directAttempt c3WitState true (ApiResult.got (some ""))).2 = none) ∧
    ((wsAttempt c3WitState true ApiResult.exn).1.websocketFailures =
        c3WitState.websocketFailures + 1 ∧
      (wsAttempt c3WitState true ApiResult.exn).2 = none ∧
      (wsAttempt c3WitState true ApiResult.noId).1.websocketFailures =
        c3WitState.websocketFailures ∧
      (wsAttempt c3WitState true ApiResult.noId).2 = none ∧
      (wsAttempt c3WitState true (ApiResult.got none)).1.websocketFailures =
        c3WitState.websocketFailures ∧
      (wsAttempt c3WitState true (ApiResult.got none)).2 = none ∧
      (wsAttempt c3WitState true (ApiResult.got (some ""))).1.websocketFailures =
        c3WitState.websocketFailures ∧
      (wsAttempt c3WitState true (ApiResult.got (some ""))).2 = none) ∧
    List.Sublist (sendMessageT c3WitState envIdle).2.2
      [RouterMethod.DIRECT_API, RouterMethod.WEBSOCKET_API,
        RouterMethod.BROWSER_AUTOMATION] :=
  ⟨rfl, rfl,
    (c3_failure_accounting c3WitState envIdle true).1 rfl,
    (c3_failure_accounting c3WitState envIdle true).2.1 rfl,
    (c3_failure_accounting c3WitState envIdle true).2.2⟩

/-- Environment for C4: the direct API raises (its client stays
constructed), then the WebSocket strategy succeeds — so the only success
of the session belongs to the WebSocket strategy. -/
def c4Env : SendEnv :=
  { envIdle with
      directInitOk := true
      directRes := ApiResult.exn
      wsInitOk := true
      wsRes := ApiResult.got (some "hi") }

/-- C4 counterexample: starting from a fresh automatic router, one call in
which only the WebSocket strategy succeeds leaves a state (one global
success, WebSocket counter 0 < threshold) in which the claim requires the
next selection to prefer the previously successful WebSocket strategy —
but `_determine_method` returns `DIRECT_API`, because stickiness tests
only the global `successful_api_calls` counter together with the direct
client object being set. -/
theorem c4_counterexample :
    (sendMessage (routerInit RouterMethod.AUTO) c4Env).2 = "hi" ∧
    (sendMessageT (routerInit RouterMethod.AUTO) c4Env).2.2 =
      [RouterMethod.DIRECT_API, RouterMethod.WEBSOCKET_API] ∧
    (sendMessage (routerInit RouterMethod.AUTO) c4Env).1.websocketFailures = 0 ∧
    (sendMessage (routerInit RouterMethod.AUTO) c4Env).1.directApiFailures = 1 ∧
    (sendMessage (routerInit RouterMethod.AUTO) c4Env).1.successfulApiCalls = 1 ∧
    (determineMethod (sendMessage (routerInit RouterMethod.AUTO) c4Env).1).2 =
      RouterMethod.DIRECT_API ∧
    ¬ (determineMethod (sendMessage (routerInit RouterMethod.AUTO) c4Env).1).2 =
        RouterMethod.WEBSOCKET_API := by
  decide

/-- C4 (amended): with at least one prior success this session — by any
strategy, since only the global `successful_api_calls` counter is
consulted — selection prefers the direct API whenever its client object
is set and its failure counter is below threshold, and otherwise prefers
the WebSocket strategy under the same conditions; the triggering success
need not be a success of the preferred strategy. -/
theorem c4_stickiness_is_global (s : RouterState)
    (hm : s.method = RouterMethod.AUTO) (hs : 0 < s.successfulApiCalls) :
    (s.directClient = true → s.directApiFailures < s.maxDirectApiFailures →
      determineMethod s = (s, RouterMethod.DIRECT_API)) ∧
    (¬ (s.directClient = true ∧ s.directApiFailures < s.maxDirectApiFailures) →
      s.wsClient = true → s.websocketFailures < s.maxWebsocketFailures →
      determineMethod s = (s, RouterMethod.WEBSOCKET_API)) := by
  constructor
  · intro hc hf
    simp [determineMethod, hm, hc, hs, hf]
  · intro hnc hc hf
    have hfirst : ¬ (s.directClient = true ∧ 0 < s.successfulApiCalls ∧
        s.directApiFailures < s.maxDirectApiFailures) := by
      intro h
      exact hnc ⟨h.1, h.2.2⟩
    simp only [determineMethod, hm]
    rw [if_neg (by simp), if_neg hfirst, if_pos ⟨hc, hs, hf⟩]

/-- Router state for the C4 witness: one prior (global) success, direct
client set, direct counter below threshold. -/
def c4WitState : RouterState :=
  { routerInit RouterMethod.AUTO with directClient := true, successfulApiCalls := 1 }

/-- Witness for C4 (amended) at a concrete state. -/
theorem c4_stickiness_is_global_witness :
    c4WitState.method = RouterMethod.AUTO ∧
    0 < c4WitState.successfulApiCalls ∧
    c4WitState.directClient = true ∧
    c4WitState.directApiFailures < c4WitState.maxDirectApiFailures ∧
    determineMethod c4WitState = (c4WitState, RouterMethod.DIRECT_API) :=
  ⟨rfl, by decide, rfl, by decide,
    (c4_stickiness_is_global c4WitState rfl (by decide)).1 rfl (by decide)⟩

/-! ## WebSocket client model (`src/api/websocket_client.py`) -/

/-- `ConnectionState` enum from `websocket_client.py`. -/
inductive ConnectionState where
  | DISCONNECTED
  | CONNECTING
  | CONNECTED
  | HANDSHAKING
  | NO_CONNECTION
  | BACKING_OFF
  | ERROR
  | CLOSED
deriving DecidableEq, Repr

/-- One entry of `self.responses`: the accumulated content and the
completion flag (`created_at`/`updated_at` wall-clock bookkeeping is
elided: no claim reads it). -/
structure WSResponseEntry where
  content : String
  complete : Bool
deriving DecidableEq, Repr

/-- One entry of `self.handlers`: which of the two optional callbacks
were registered for the message id. -/
structure WSHandlerEntry where
  hasUpdate : Bool
  hasComplete : Bool
deriving DecidableEq, Repr

/-- The state of a `ReplitWebSocketClient` that its message processing,
response waiting and reconnection logic read and write.  The raw socket,
auth data, connection parameters and the listener task handle are
external I/O and are elided. -/
structure WSClientState where
  connState : ConnectionState
  responses : List (String × WSResponseEntry)
  handlers : List (String × WSHandlerEntry)
  backoffTime : Nat
  maxBackoffTime : Nat
  reconnectAttempts : Nat
  maxReconnectAttempts : Nat
deriving DecidableEq, Repr

/-- A freshly constructed client (`__init__`): disconnected, empty
registries, backoff base 1s capped at 30s, at most 5 reconnects. -/
def wsClientInit : WSClientState :=
  { connState := ConnectionState.DISCONNECTED
    responses := []
    handlers := []
    backoffTime := 1
    maxBackoffTime := 30
    reconnectAttempts := 0
    maxReconnectAttempts := 5 }

/-- The message id generated at line 243 when none is supplied:
`f"msg_{int(time.time() * 1000)}_{hash(text) % 10000}"`.  `timeMs` is the
millisecond wall clock and `textHash` the value of Python's `hash(text)`
(equal texts hash equally within one process). -/
def wsGenMessageId (timeMs textHash : Nat) : String :=
  "msg_" ++ toString timeMs ++ "_" ++ toString (textHash % 10000)

/-- The ids generated by a sequence of `send_message` invocations, each
described by its millisecond timestamp and its text's hash. -/
def wsMessageIds (calls : List (Nat × Nat)) : List String :=
  calls.map (fun p => wsGenMessageId p.1 p.2)

/-- The registration step of `ReplitWebSocketClient.send_message`
(lines 241-259): create the response-tracking entry and, if either
callback was supplied, the handler entry.  The subsequent connect check
and socket write are external I/O; on their failure the registrations
remain (the function returns `None` without cleanup). -/
def wsSendMessageReg (c : WSClientState) (timeMs textHash : Nat)
    (hasUpdate hasComplete : Bool) : WSClientState × String :=
  let id := wsGenMessageId timeMs textHash
  let c₁ := { c with responses := assocSet id ⟨"", false⟩ c.responses }
  let c₂ :=
    if hasUpdate || hasComplete then
      { c₁ with handlers := assocSet id ⟨hasUpdate, hasComplete⟩ c₁.handlers }
    else c₁
  (c₂, id)

/-- Inbound WebSocket messages as `_process_messages` distinguishes them
(lines 166-215): an `agentResponse` chunk, an `agentResponseComplete`
marker, or anything else (state logs, non-JSON, unknown types), which
only logs. -/
inductive WSInMessage where
  | agentResponse (id content : String)
  | agentResponseComplete (id : String)
  | other
deriving DecidableEq, Repr

/-- A callback invocation observed by the caller: an `on_update` chunk or
an `on_complete` full text, tagged with the message id. -/
inductive CallbackEvent where
  | update (id chunk : String)
  | complete (id full : String)
deriving DecidableEq, Repr

/-- `ReplitWebSocketClient._process_messages`, one message (lines
169-209): `agentResponse` appends the chunk to the tracked content and
fires `on_update` when registered; `agentResponseComplete` marks the
entry complete and fires `on_complete` with the accumulated content. -/
def wsProcessMessage (c : WSClientState) (m : WSInMessage) :
    WSClientState × List CallbackEvent :=
  match m with
  | WSInMessage.agentResponse id content =>
    match assocFind id c.responses with
    | none => (c, [])
    | some e =>
      let c' := { c with
        responses := assocSet id { e with content := e.content ++ content } c.responses }
      match assocFind id c.handlers with
      | some h =>
        if h.hasUpdate then (c', [CallbackEvent.update id content]) else (c', [])
      | none => (c', [])
  | WSInMessage.agentResponseComplete id =>
    match assocFind id c.responses with
    | none => (c, [])
    | some e =>
      let c' := { c with
        responses := assocSet id { e with complete := true } c.responses }
      match assocFind id c.handlers with
      | some h =>
        if h.hasComplete then (c', [CallbackEvent.complete id e.content]) else (c', [])
      | none => (c', [])
  | WSInMessage.other => (c, [])

/-- The listener loop folded over a list of inbound messages, collecting
the callback events in order. -/
def wsProcessAll (c : WSClientState) (ms : List WSInMessage) :
    WSClientState × List CallbackEvent :=
  match ms with
  | [] => (c, [])
  | m :: t =>
    let p := wsProcessMessage c m
    let q := wsProcessAll p.1 t
    (q.1, p.2 ++ q.2)

/-- How the polling loop of `wait_for_response` (lines 302-313) resolved:
the entry was marked complete first, the timeout elapsed first, or the
connection entered `ERROR`/`CLOSED` first. -/
inductive WaitOutcome where
  | completed
  | timedOut
  | connLost
deriving DecidableEq, Repr

/-- `ReplitWebSocketClient.wait_for_response` (lines 288-315), applied to
the client state as of the loop's resolution: an untracked id returns
`None`; completion returns the accumulated content; timeout and
connection loss return `None`.  No branch removes the `responses` entry
(or the `handlers` entry). -/
def wsWaitForResponse (c : WSClientState) (messageId : String) (w : WaitOutcome) :
    WSClientState × Option String :=
  match assocFind messageId c.responses with
  | none => (c, none)
  | some e =>
    match w with
    | WaitOutcome.completed => (c, some e.content)
    | WaitOutcome.timedOut => (c, none)
    | WaitOutcome.connLost => (c, none)

/-- `ReplitWebSocketClient.reconnect` (lines 149-164) up to the final
`connect()` call: at the attempt cap it sets `ERROR` and returns `False`
(modelled as `none`); otherwise it increments the attempt counter, enters
`BACKING_OFF` and sleeps `min(backoff_time * 2 ** (attempts - 1),
max_backoff_time)` seconds (the slept delay is returned). -/
def wsReconnect (c : WSClientState) : WSClientState × Option Nat :=
  if c.maxReconnectAttempts ≤ c.reconnectAttempts then
    ({ c with connState := ConnectionState.ERROR }, none)
  else
    let c' := { c with
      reconnectAttempts := c.reconnectAttempts + 1
      connState := ConnectionState.BACKING_OFF }
    (c', some (min (c'.backoffTime * 2 ^ (c'.reconnectAttempts - 1)) c'.maxBackoffTime))

/-! ## Direct API client model (`src/api/direct_api_client.py`) -/

/-- One entry of `self.message_callbacks`: which callbacks were supplied
(`timestamp` bookkeeping elided: no claim reads it). -/
structure DirectCallbackEntry where
  hasUpdate : Bool
  hasComplete : Bool
deriving DecidableEq, Repr

/-- The state of a `ReplitDirectAPIClient` that its message processing
and response waiting read and write; socket, auth data and connection
parameters are external I/O and elided. -/
structure DirectClientState where
  messageCallbacks : List (String × DirectCallbackEntry)
  connEstablished : Bool
  inited : Bool
deriving DecidableEq, Repr

/-- A freshly constructed client (`__init__`). -/
def directClientInit : DirectClientState :=
  { messageCallbacks := [], connEstablished := false, inited := false }

/-- Inbound messages as `_process_messages` distinguishes them (lines
164-198): the `connection:established` marker, an `agent:stream` chunk,
an `agent:response` final payload, or anything else (ignored). -/
inductive DirectInMessage where
  | connEstablishedMsg
  | stream (id content : String)
  | response (id content : String)
  | other
deriving DecidableEq, Repr

/-- `ReplitDirectAPIClient._process_messages`, one message: a stream
chunk fires `on_update` with the chunk; a response fires `on_complete`
with that message's own content and deletes the callback entry.  Nothing
accumulates the streamed chunks. -/
def directProcessMessage (c : DirectClientState) (m : DirectInMessage) :
    DirectClientState × List CallbackEvent :=
  match m with
  | DirectInMessage.connEstablishedMsg => ({ c with connEstablished := true }, [])
  | DirectInMessage.stream id content =>
    match assocFind id c.messageCallbacks with
    | some cb =>
      if cb.hasUpdate then (c, [CallbackEvent.update id content]) else (c, [])
    | none => (c, [])
  | DirectInMessage.response id content =>
    match assocFind id c.messageCallbacks with
    | some cb =>
      if cb.hasComplete then
        ({ c with messageCallbacks := assocErase id c.messageCallbacks },
          [CallbackEvent.complete id content])
      else (c, [])
    | none => (c, [])
  | DirectInMessage.other => (c, [])

/-- The listener loop folded over a list of inbound messages. -/
def directProcessAll (c : DirectClientState) (ms : List DirectInMessage) :
    DirectClientState × List CallbackEvent :=
  match ms with
  | [] => (c, [])
  | m :: t =>
    let p := directProcessMessage c m
    let q := directProcessAll p.1 t
    (q.1, p.2 ++ q.2)

/-- The registration step of `ReplitDirectAPIClient.send_message` (lines
225-249): a fresh UUID id (supplied by `utils.generate_uuid`, passed in
here as `newId`) is mapped to the supplied callbacks.  The socket write
is external I/O; if it raises, the entry is removed again before the
exception propagates (`sendOk = false` models that path). -/
def directSendMessageReg (c : DirectClientState) (newId : String)
    (hasUpdate hasComplete : Bool) (sendOk : Bool) :
    DirectClientState × Option String :=
  let c₁ := { c with
    messageCallbacks := assocSet newId ⟨hasUpdate, hasComplete⟩ c.messageCallbacks }
  if sendOk then (c₁, some newId)
  else ({ c₁ with messageCallbacks := assocErase newId c₁.messageCallbacks }, none)

/-- `ReplitDirectAPIClient.wait_for_response` (lines 256-292): an
untracked id returns `None`; otherwise the wrapped future resolves with
the completion content (`arrival = some content`) or times out
(`arrival = none`), and the `finally` block removes the callback entry in
either case. -/
def directWaitForResponse (c : DirectClientState) (messageId : String)
    (arrival : Option String) : DirectClientState × Option String :=
  match assocFind messageId c.messageCallbacks with
  | none => (c, none)
  | some _ =>
    ({ c with messageCallbacks := assocErase messageId c.messageCallbacks }, arrival)

/-! ## Token manager model (`src/auth/token_manager.py`) -/

/-- One value of the `self.tokens` mapping: the user's auth bundle (an
opaque string-to-string map) plus the capture timestamp. -/
structure StoredEntry where
  data : List (String × String)
  storedAt : Nat
deriving DecidableEq, Repr

/-- The in-memory state of a `TokenManager`: the decrypted user-id →
entry mapping.  The cipher, storage paths and the encrypted file bytes
are external I/O; `save_tokens` serializes `self.tokens` and its success
does not alter the in-memory mapping. -/
structure TokenManagerState where
  tokens : List (String × StoredEntry)
deriving DecidableEq, Repr

/-- What reading + decrypting + JSON-parsing the tokens file produced:
the file is absent, it is unreadable/undecryptable/unparsable (any
exception), or it decodes to a mapping. -/
inductive TokensFile where
  | absent
  | unreadable
  | readable (m : List (String × StoredEntry))
deriving DecidableEq, Repr

/-- `TokenManager.load_tokens` (lines 67-82): a missing file returns with
`self.tokens` untouched; any exception while reading, decrypting, or
parsing resets `self.tokens` to `{}`; success replaces it with the
decoded mapping. -/
def loadTokens (tm : TokenManagerState) (file : TokensFile) : TokenManagerState :=
  match file with
  | TokensFile.absent => tm
  | TokensFile.unreadable => { tm with tokens := [] }
  | TokensFile.readable m => { tm with tokens := m }

/-- `TokenManager.__init__` (lines 15-40): `self.tokens = {}` then
`self.load_tokens()`.  Encryption setup is external I/O (it raises only
on an invalid key, outside every claim's scope). -/
def tokenManagerInit (file : TokensFile) : TokenManagerState :=
  loadTokens { tokens := [] } file

/-- `TokenManager.store_user_tokens` (lines 99-115): record the bundle
with its timestamp and rewrite the file (`save_tokens` is external I/O;
its Boolean result is the function's return value and does not affect
the in-memory mapping). -/
def storeUserTokens (tm : TokenManagerState) (userId : String)
    (authData : List (String × String)) (now : Nat) : TokenManagerState :=
  { tm with tokens := assocSet userId ⟨authData, now⟩ tm.tokens }

/-- `TokenManager.get_user_tokens` (lines 117-131): `None` when the user
has no entry (entries written by `store_user_tokens` are non-empty dicts,
so Python's truthiness test coincides with presence), else the stored
bundle. -/
def getUserTokens (tm : TokenManagerState) (userId : String) :
    Option (List (String × String)) :=
  match assocFind userId tm.tokens with
  | none => none
  | some e => some e.data

/-- `TokenManager.is_token_valid` (lines 133-150):
`(current_time - stored_at) < max_age` when an entry exists. -/
def isTokenValid (tm : TokenManagerState) (userId : String) (now maxAge : Nat) : Bool :=
  match assocFind userId tm.tokens with
  | none => false
  | some e => now - e.storedAt < maxAge

/-- `TokenManager.delete_user_tokens` (lines 152-165): delete and save
when present (returning the save result, modelled `true`), else `False`. -/
def deleteUserTokens (tm : TokenManagerState) (userId : String) :
    TokenManagerState × Bool :=
  match assocFind userId tm.tokens with
  | some _ => ({ tm with tokens := assocErase userId tm.tokens }, true)
  | none => (tm, false)

/-! ## Transport and store theorems (claims C5, C7, C8, C9, C10) -/

/-- A WebSocket client with one incomplete pending response. -/
def c5WsState : WSClientState :=
  { wsClientInit with responses := [("m1", ⟨"", false⟩)] }

/-- C5 counterexample: after a timeout, the WebSocket client's
`wait_for_response` returns `None` but the `responses` registration for
the id is still present — the claim's cleanup does not happen for this
transport. -/
theorem c5_counterexample :
    (wsWaitForResponse c5WsState "m1" WaitOutcome.timedOut).2 = none ∧
    ¬ assocFind "m1"
        (wsWaitForResponse c5WsState "m1" WaitOutcome.timedOut).1.responses = none := by
  decide

/-- C5 (amended): on timeout both transports return `None`; the direct
API client's `finally` block removes the callback registration, but the
WebSocket client leaves its `responses` registration (and state) exactly
as they were. -/
theorem c5_timeout_cleanup (dc : DirectClientState) (wc : WSClientState)
    (id : String) (e : WSResponseEntry)
    (hd : ¬ assocFind id dc.messageCallbacks = none)
    (hw : assocFind id wc.responses = some e) (hc : e.complete = false) :
    (directWaitForResponse dc id none).2 = none ∧
    assocFind id (directWaitForResponse dc id none).1.messageCallbacks = none ∧
    (wsWaitForResponse wc id WaitOutcome.timedOut).2 = none ∧
    (wsWaitForResponse wc id WaitOutcome.timedOut).1 = wc := by
  rcases hfind : assocFind id dc.messageCallbacks with _ | cb
  · exact absurd hfind hd
  · refine ⟨?_, ?_, ?_, ?_⟩
    · simp [directWaitForResponse, hfind]
    · simp [directWaitForResponse, hfind, assocFind_erase_same]
    · simp [wsWaitForResponse, hw]
    · simp [wsWaitForResponse, hw]

/-- A direct API client with one registered callback entry. -/
def c5DirectState : DirectClientState :=
  { directClientInit with messageCallbacks := [("m1", ⟨true, true⟩)] }

/-- Witness for C5 (amended) at concrete states. -/
theorem c5_timeout_cleanup_witness :
    ¬ assocFind "m1" c5DirectState.messageCallbacks = none ∧
    assocFind "m1" c5WsState.responses = some ⟨"", false⟩ ∧
    (⟨"", false⟩ : WSResponseEntry).complete = false ∧
    ((directWaitForResponse c5DirectState "m1" none).2 = none ∧
      assocFind "m1" (directWaitForResponse c5DirectState "m1" none).1.messageCallbacks =
        none ∧
      (wsWaitForResponse c5WsState "m1" WaitOutcome.timedOut).2 = none ∧
      (wsWaitForResponse c5WsState "m1" WaitOutcome.timedOut).1 = c5WsState) :=
  ⟨by decide, by decide, rfl,
    c5_timeout_cleanup c5DirectState c5WsState "m1" ⟨"", false⟩
      (by decide) (by decide) rfl⟩

/-- C7: for reconnection attempt `k` with `1 ≤ k ≤ max_reconnect_attempts`
(the counter reading `k - 1` beforehand), `reconnect` sleeps exactly
`min(backoff_time * 2^(k-1), max_backoff_time)` and enters `BACKING_OFF`;
once the would-be attempt exceeds the cap, it sets `ERROR` and returns
failure without retrying. -/
theorem c7_reconnect_backoff (c : WSClientState) (k : Nat)
    (h1 : 1 ≤ k) (h2 : k ≤ c.maxReconnectAttempts)
    (hk : c.reconnectAttempts = k - 1) :
    (wsReconnect c).2 = some (min (c.backoffTime * 2 ^ (k - 1)) c.maxBackoffTime) ∧
    (wsReconnect c).1.reconnectAttempts = k ∧
    (wsReconnect c).1.connState = ConnectionState.BACKING_OFF ∧
    ∀ c' : WSClientState, c'.maxReconnectAttempts ≤ c'.reconnectAttempts →
      (wsReconnect c').1.connState = ConnectionState.ERROR ∧ (wsReconnect c').2 = none := by
  have hlt : ¬ c.maxReconnectAttempts ≤ k - 1 := by omega
  refine ⟨?_, ?_, ?_, ?_⟩
  · simp [wsReconnect, hk, hlt]
  · simp [wsReconnect, hk, hlt]
    omega
  · simp [wsReconnect, hk, hlt]
  · intro c' h
    simp [wsReconnect, h]

/-- Witness for C7 at a concrete state: third attempt, so the slept
delay is `min(1 * 2^2, 30) = 4`; plus the cap case at attempts = 5. -/
theorem c7_reconnect_backoff_witness :
    1 ≤ 3 ∧ 3 ≤ wsClientInit.maxReconnectAttempts ∧
    ({ wsClientInit with reconnectAttempts := 2 } : WSClientState).reconnectAttempts =
      3 - 1 ∧
    ((wsReconnect { wsClientInit with reconnectAttempts := 2 }).2 =
        some (min (wsClientInit.backoffTime * 2 ^ (3 - 1)) wsClientInit.maxBackoffTime) ∧
      (wsReconnect { wsClientInit with reconnectAttempts := 2 }).1.reconnectAttempts = 3 ∧
      (wsReconnect { wsClientInit with reconnectAttempts := 2 }).1.connState =
        ConnectionState.BACKING_OFF ∧
      ∀ c' : WSClientState, c'.maxReconnectAttempts ≤ c'.reconnectAttempts →
        (wsReconnect c').1.connState = ConnectionState.ERROR ∧
        (wsReconnect c').2 = none) :=
  ⟨by decide, by decide, rfl,
    c7_reconnect_backoff { wsClientInit with reconnectAttempts := 2 } 3
      (by decide) (by decide) rfl⟩

/-- C8: storing a bundle for a user and reading it back returns an equal
bundle, and after deletion the read returns `None` (from any starting
state, hence also right after the store). -/
theorem c8_store_get_delete_roundtrip (tm : TokenManagerState) (u : String)
    (b : List (String × String)) (now : Nat) :
    getUserTokens (storeUserTokens tm u b now) u = some b ∧
    getUserTokens (deleteUserTokens tm u).1 u = none := by
  constructor
  · simp [getUserTokens, storeUserTokens, assocFind_set_same]
  · rcases hfind : assocFind u tm.tokens with _ | e
    · simp [deleteUserTokens, hfind, getUserTokens]
    · simp [deleteUserTokens, hfind, getUserTokens, assocFind_erase_same]

/-- C9 counterexample: two distinct `send_message` invocations that fall
in the same millisecond with the same text hash generate the same
requestId — ids are reused. -/
theorem c9_counterexample :
    (wsMessageIds [(1000, 7), (1000, 7)]).length = 2 ∧
    (wsMessageIds [(1000, 7), (1000, 7)])[0]? =
      (wsMessageIds [(1000, 7), (1000, 7)])[1]? ∧
    (0 : Nat) ≠ 1 := by
  decide

/-- C9 (amended): the WebSocket client's generated id is a pure function
of the millisecond timestamp and `hash(text) % 10000`, so distinct
invocations sharing both reuse the id; registration is a dict write, so
with unique keys beforehand there is still at most one PendingRequest
entry per requestId afterwards, and the new id maps to the fresh empty
entry. -/
theorem c9_registration_unique (c : WSClientState) (tMs hVal : Nat)
    (hu hc : Bool) (hnd : keysNodup c.responses) (hnh : keysNodup c.handlers) :
    keysNodup (wsSendMessageReg c tMs hVal hu hc).1.responses ∧
    keysNodup (wsSendMessageReg c tMs hVal hu hc).1.handlers ∧
    assocFind (wsSendMessageReg c tMs hVal hu hc).2
      (wsSendMessageReg c tMs hVal hu hc).1.responses = some ⟨"", false⟩ ∧
    ∀ tMs2 hVal2 : Nat, tMs = tMs2 → hVal % 10000 = hVal2 % 10000 →
      wsGenMessageId tMs hVal = wsGenMessageId tMs2 hVal2 := by
  refine ⟨?_, ?_, ?_, ?_⟩
  · by_cases hb : (hu || hc) = true
    · simpa [wsSendMessageReg, hb] using keysNodup_assocSet _ _ _ hnd
    · simpa [wsSendMessageReg, hb] using keysNodup_assocSet _ _ _ hnd
  · by_cases hb : (hu || hc) = true
    · simpa [wsSendMessageReg, hb] using keysNodup_assocSet _ _ _ hnh
    · simpa [wsSendMessageReg, hb] using hnh
  · by_cases hb : (hu || hc) = true
    · simp [wsSendMessageReg, hb, assocFind_set_same]
    · simp [wsSendMessageReg, hb, assocFind_set_same]
  · intro tMs2 hVal2 ht hh
    simp [wsGenMessageId, ht, hh]

/-- Witness for C9 (amended) on a fresh client. -/
theorem c9_registration_unique_witness :
    keysNodup wsClientInit.responses ∧
    keysNodup wsClientInit.handlers ∧
    (keysNodup (wsSendMessageReg wsClientInit 1000 7 true true).1.responses ∧
      keysNodup (wsSendMessageReg wsClientInit 1000 7 true true).1.handlers ∧
      assocFind (wsSendMessageReg wsClientInit 1000 7 true true).2
        (wsSendMessageReg wsClientInit 1000 7 true true).1.responses =
        some ⟨"", false⟩ ∧
      ∀ tMs2 hVal2 : Nat, 1000 = tMs2 → 7 % 10000 = hVal2 % 10000 →
        wsGenMessageId 1000 7 = wsGenMessageId tMs2 hVal2) :=
  ⟨by decide, by decide,
    c9_registration_unique wsClientInit 1000 7 true true (by decide) (by decide)⟩

/-- C10: if the encrypted tokens file is missing or fails to
read/decrypt/parse, construction still yields an empty in-memory mapping
and every user lookup returns `None`. -/
theorem c10_load_failure_empty (file : TokensFile) (u : String)
    (h : file = TokensFile.absent ∨ file = TokensFile.unreadable) :
    (tokenManagerInit file).tokens = [] ∧
    getUserTokens (tokenManagerInit file) u = none := by
  rcases h with h | h <;> subst h <;>
    simp [tokenManagerInit, loadTokens, getUserTokens, assocFind]

/-- Witness for C10 at the missing-file case. -/
theorem c10_load_failure_empty_witness :
    (TokensFile.absent = TokensFile.absent ∨
      TokensFile.absent = TokensFile.unreadable) ∧
    ((tokenManagerInit TokensFile.absent).tokens = [] ∧
      getUserTokens (tokenManagerInit TokensFile.absent) "42" = none) :=
  ⟨Or.inl rfl, c10_load_failure_empty TokensFile.absent "42" (Or.inl rfl)⟩

/-! ## Streaming invariant (claim C6) -/

theorem strAppendEmpty (s : String) : s ++ "" = s := by
  apply String.ext
  show s.data ++ [] = s.data
  simp

theorem strAppendAssoc (a b c : String) : a ++ b ++ c = a ++ (b ++ c) := by
  apply String.ext
  show (a.data ++ b.data) ++ c.data = a.data ++ (b.data ++ c.data)
  simp

/-- The concatenation, in order, of the chunks delivered to `on_update`
for a given id within an event list. -/
def chunkConcat (id : String) : List CallbackEvent → String
  | [] => ""
  | CallbackEvent.update i ch :: t => (if i = id then ch else "") ++ chunkConcat id t
  | CallbackEvent.complete _ _ :: t => chunkConcat id t

theorem chunkConcat_append (id : String) (a b : List CallbackEvent) :
    chunkConcat id (a ++ b) = chunkConcat id a ++ chunkConcat id b := by
  induction a with
  | nil =>
    show chunkConcat id b = "" ++ chunkConcat id b
    apply String.ext
    show (chunkConcat id b).data = [] ++ (chunkConcat id b).data
    simp
  | cons ev t ih =>
    cases ev with
    | update i ch =>
      show (if i = id then ch else "") ++ chunkConcat id (t ++ b) =
        (if i = id then ch else "") ++ chunkConcat id t ++ chunkConcat id b
      rw [ih, strAppendAssoc]
    | complete i f =>
      show chunkConcat id (t ++ b) = chunkConcat id t ++ chunkConcat id b
      exact ih

/-- Every `on_complete` invocation for `id` within the event list carries
exactly the base content plus the concatenation of the `on_update` chunks
delivered for `id` before it. -/
def completeEventsOk (id base : String) (evs : List CallbackEvent) : Prop :=
  ∀ l₁ f l₂, evs = l₁ ++ CallbackEvent.complete id f :: l₂ →
    f = base ++ chunkConcat id l₁

theorem completeEventsOk_nil (id base : String) : completeEventsOk id base [] := by
  intro l₁ f l₂ heq
  exact absurd heq (by simp)

theorem completeEventsOk_append (id base : String) (a b : List CallbackEvent)
    (ha : completeEventsOk id base a)
    (hb : completeEventsOk id (base ++ chunkConcat id a) b) :
    completeEventsOk id base (a ++ b) := by
  intro l₁ f l₂ heq
  rcases List.append_eq_append_iff.mp heq with ⟨mid, hl₁, hb2⟩ | ⟨mid, ha2, hmid⟩
  · have hf := hb mid f l₂ hb2
    rw [hf, hl₁, chunkConcat_append, strAppendAssoc]
  · cases mid with
    | nil =>
      have hb2 : b = [] ++ CallbackEvent.complete id f :: l₂ := by
        simpa using hmid.symm
      have hf := hb [] f l₂ hb2
      have ha' : a = l₁ := by simpa using ha2
      rw [hf, ha']
      simp [chunkConcat, strAppendEmpty]
    | cons ev t =>
      have hev : CallbackEvent.complete id f = ev := by
        have h' := hmid
        simp only [List.cons_append] at h'
        exact (List.cons_eq_cons.mp h').1
      exact ha l₁ f t (by rw [ha2, ← hev])

theorem wsProcessMessage_handlers (c : WSClientState) (m : WSInMessage) :
    (wsProcessMessage c m).1.handlers = c.handlers := by
  cases m with
  | agentResponse id content =>
    dsimp only [wsProcessMessage]
    split
    · rfl
    · split
      · split
        · rfl
        · rfl
      · rfl
  | agentResponseComplete id =>
    dsimp only [wsProcessMessage]
    split
    · rfl
    · split
      · split
        · rfl
        · rfl
      · rfl
  | other => rfl

theorem completeEventsOk_single_update (id base i ch : String) :
    completeEventsOk id base [CallbackEvent.update i ch] := by
  intro l₁ f l₂ heq
  cases l₁ with
  | nil => simp at heq
  | cons x t =>
    simp only [List.cons_append, List.cons_eq_cons] at heq
    exact absurd heq.2 (by simp)

/-- The single-message invariant: if `id` is tracked with an `on_update`
handler, processing any one inbound message keeps `id` tracked, extends
its content by exactly the chunks delivered for `id`, and any completion
event it fires carries the pre-message content. -/
theorem wsProcessMessage_tracked (c : WSClientState) (m : WSInMessage)
    (id : String) (e : WSResponseEntry) (h : WSHandlerEntry)
    (he : assocFind id c.responses = some e)
    (hh : assocFind id c.handlers = some h) (hu : h.hasUpdate = true) :
    ∃ e' : WSResponseEntry,
      assocFind id (wsProcessMessage c m).1.responses = some e' ∧
      e'.content = e.content ++ chunkConcat id (wsProcessMessage c m).2 ∧
      completeEventsOk id e.content (wsProcessMessage c m).2 := by
  cases m with
  | agentResponse i ch =>
    by_cases hi : i = id
    · subst hi
      refine ⟨{ e with content := e.content ++ ch }, ?_, ?_, ?_⟩
      · simp [wsProcessMessage, he, hh, hu, assocFind_set_same]
      · simp [wsProcessMessage, he, hh, hu, chunkConcat, strAppendEmpty]
      · simp only [wsProcessMessage, he, hh, hu, if_true]
        exact completeEventsOk_single_update i e.content i ch
    · have hne : id ≠ i := fun eq => hi eq.symm
      rcases hfind : assocFind i c.responses with _ | e₂
      · refine ⟨e, ?_, ?_, ?_⟩
        · simp [wsProcessMessage, hfind, he]
        · simp [wsProcessMessage, hfind, chunkConcat, strAppendEmpty]
        · simp only [wsProcessMessage, hfind]
          exact completeEventsOk_nil id e.content
      · rcases hh₂ : assocFind i c.handlers with _ | h₂
        · refine ⟨e, ?_, ?_, ?_⟩
          · simp [wsProcessMessage, hfind, hh₂, assocFind_set_other i id _ _ hne, he]
          · simp [wsProcessMessage, hfind, hh₂, chunkConcat, strAppendEmpty]
          · simp only [wsProcessMessage, hfind, hh₂]
            exact completeEventsOk_nil id e.content
        · by_cases hu₂ : h₂.hasUpdate = true
          · refine ⟨e, ?_, ?_, ?_⟩
            · simp [wsProcessMessage, hfind, hh₂, hu₂,
                assocFind_set_other i id _ _ hne, he]
            · simp [wsProcessMessage, hfind, hh₂, hu₂, chunkConcat, hi, strAppendEmpty]
            · simp only [wsProcessMessage, hfind, hh₂, hu₂, if_true]
              exact completeEventsOk_single_update id e.content i ch
          · refine ⟨e, ?_, ?_, ?_⟩
            · simp [wsProcessMessage, hfind, hh₂, hu₂,
                assocFind_set_other i id _ _ hne, he]
            · simp [wsProcessMessage, hfind, hh₂, hu₂, chunkConcat, strAppendEmpty]
            · simp only [wsProcessMessage, hfind, hh₂, hu₂, if_false]
              exact completeEventsOk_nil id e.content
  | agentResponseComplete i =>
    by_cases hi : i = id
    · subst hi
      by_cases hc₂ : h.hasComplete = true
      · refine ⟨{ e with complete := true }, ?_, ?_, ?_⟩
        · simp [wsProcessMessage, he, hh, hc₂, assocFind_set_same]
        · simp [wsProcessMessage, he, hh, hc₂, chunkConcat, strAppendEmpty]
        · simp only [wsProcessMessage, he, hh, hc₂, if_true]
          intro l₁ f l₂ heq
          cases l₁ with
          | nil =>
            simp only [List.nil_append, List.cons_eq_cons] at heq
            have hf : CallbackEvent.complete i f = CallbackEvent.complete i e.content :=
              heq.1.symm
            have hfe : f = e.content := by injection hf
            rw [hfe, chunkConcat, strAppendEmpty]
          | cons x t =>
            simp only [List.cons_append, List.cons_eq_cons] at heq
            exact absurd heq.2 (by simp)
      · refine ⟨{ e with complete := true }, ?_, ?_, ?_⟩
        · simp [wsProcessMessage, he, hh, hc₂, assocFind_set_same]
        · simp [wsProcessMessage, he, hh, hc₂, chunkConcat, strAppendEmpty]
        · simp only [wsProcessMessage, he, hh, hc₂, if_false]
          exact completeEventsOk_nil i e.content
    · have hne : id ≠ i := fun eq => hi eq.symm
      rcases hfind : assocFind i c.responses with _ | e₂
      · refine ⟨e, ?_, ?_, ?_⟩
        · simp [wsProcessMessage, hfind, he]
        · simp [wsProcessMessage, hfind, chunkConcat, strAppendEmpty]
        · simp only [wsProcessMessage, hfind]
          exact completeEventsOk_nil id e.content
      · rcases hh₂ : assocFind i c.handlers with _ | h₂
        · refine ⟨e, ?_, ?_, ?_⟩
          · simp [wsProcessMessage, hfind, hh₂, assocFind_set_other i id _ _ hne, he]
          · simp [wsProcessMessage, hfind, hh₂, chunkConcat, strAppendEmpty]
          · simp only [wsProcessMessage, hfind, hh₂]
            exact completeEventsOk_nil id e.content
        · by_cases hc₂ : h₂.hasComplete = true
          · refine ⟨e, ?_, ?_, ?_⟩
            · simp [wsProcessMessage, hfind, hh₂, hc₂,
                assocFind_set_other i id _ _ hne, he]
            · simp [wsProcessMessage, hfind, hh₂, hc₂, chunkConcat, strAppendEmpty]
            · simp only [wsProcessMessage, hfind, hh₂, hc₂, if_true]
              intro l₁ f l₂ heq
              cases l₁ with
              | nil =>
                simp only [List.nil_append, List.cons_eq_cons] at heq
                have hcc : CallbackEvent.complete id f =
                    CallbackEvent.complete i e₂.content := heq.1.symm
                have hid : id = i := by injection hcc
                exact absurd hid hne
              | cons x t =>
                simp only [List.cons_append, List.cons_eq_cons] at heq
                exact absurd heq.2 (by simp)
          · refine ⟨e, ?_, ?_, ?_⟩
            · simp [wsProcessMessage, hfind, hh₂, hc₂,
                assocFind_set_other i id _ _ hne, he]
            · simp [wsProcessMessage, hfind, hh₂, hc₂, chunkConcat, strAppendEmpty]
            · simp only [wsProcessMessage, hfind, hh₂, hc₂, if_false]
              exact completeEventsOk_nil id e.content
  | other =>
    refine ⟨e, he, (strAppendEmpty e.content).symm, completeEventsOk_nil id e.content⟩

/-- The listener-loop invariant: a tracked id with an `on_update` handler
stays tracked across any inbound message sequence, its content grows by
exactly the concatenation of the chunks delivered for it, and every
`on_complete` it fires carries the starting content plus the chunks
delivered before that completion. -/
theorem wsProcessAll_tracked (ms : List WSInMessage) (c : WSClientState)
    (id : String) (e : WSResponseEntry) (h : WSHandlerEntry)
    (he : assocFind id c.responses = some e)
    (hh : assocFind id c.handlers = some h) (hu : h.hasUpdate = true) :
    ∃ e' : WSResponseEntry,
      assocFind id (wsProcessAll c ms).1.responses = some e' ∧
      e'.content = e.content ++ chunkConcat id (wsProcessAll c ms).2 ∧
      completeEventsOk id e.content (wsProcessAll c ms).2 := by
  induction ms generalizing c e with
  | nil =>
    exact ⟨e, he, (strAppendEmpty e.content).symm, completeEventsOk_nil id e.content⟩
  | cons m t ih =>
    obtain ⟨e₁, he₁, hc₁, hok₁⟩ := wsProcessMessage_tracked c m id e h he hh hu
    have hh₁ : assocFind id (wsProcessMessage c m).1.handlers = some h := by
      rw [wsProcessMessage_handlers]
      exact hh
    obtain ⟨e₂, he₂, hc₂, hok₂⟩ := ih (wsProcessMessage c m).1 e₁ he₁ hh₁
    refine ⟨e₂, he₂, ?_, ?_⟩
    · show e₂.content = e.content ++
        chunkConcat id ((wsProcessMessage c m).2 ++ (wsProcessAll (wsProcessMessage c m).1 t).2)
      rw [chunkConcat_append, hc₂, hc₁, strAppendAssoc]
    · show completeEventsOk id e.content
        ((wsProcessMessage c m).2 ++ (wsProcessAll (wsProcessMessage c m).1 t).2)
      apply completeEventsOk_append
      · exact hok₁
      · rw [hc₁] at hok₂
        exact hok₂

/-- A direct API client with one fully-registered callback entry. -/
def c6DirectState : DirectClientState :=
  { directClientInit with messageCallbacks := [("m", ⟨true, true⟩)] }

/-- C6 counterexample: on the direct API transport, the inbound sequence
"stream chunk a, response b" delivers chunk "a" to `on_update` and then
passes only "b" to `on_complete`, while the claim requires the full text
"ab" (concatenation of delivered chunks plus the final payload). -/
theorem c6_counterexample :
    (directProcessAll c6DirectState
        [DirectInMessage.stream "m" "a", DirectInMessage.response "m" "b"]).2 =
      [CallbackEvent.update "m" "a", CallbackEvent.complete "m" "b"] ∧
    chunkConcat "m" [CallbackEvent.update "m" "a"] ++ "b" = "ab" ∧
    ¬ ("b" : String) = "ab" := by
  decide

/-- C6 (amended): on the WebSocket transport the full text passed to
`on_complete` always equals the tracked content at registration time plus
the concatenation, in receipt order, of all chunks delivered to
`on_update` for that id (the completion frame carries no payload of its
own); on the direct API transport `on_complete` receives exactly the
final response message's own payload, with previously streamed chunks
ignored. -/
theorem c6_fulltext_is_chunk_concat :
    (∀ (ms : List WSInMessage) (c : WSClientState) (id : String)
        (e : WSResponseEntry) (h : WSHandlerEntry),
      assocFind id c.responses = some e →
      assocFind id c.handlers = some h →
      h.hasUpdate = true →
      completeEventsOk id e.content (wsProcessAll c ms).2) ∧
    (∀ (c : DirectClientState) (id content : String) (cb : DirectCallbackEntry),
      assocFind id c.messageCallbacks = some cb →
      cb.hasComplete = true →
      (directProcessMessage c (DirectInMessage.response id content)).2 =
        [CallbackEvent.complete id content]) := by
  constructor
  · intro ms c id e h he hh hu
    obtain ⟨e', _, _, hok⟩ := wsProcessAll_tracked ms c id e h he hh hu
    exact hok
  · intro c id content cb hcb hcc
    simp [directProcessMessage, hcb, hcc]

/-- A WebSocket client with one fresh registration for id "m". -/
def c6WsState : WSClientState :=
  { wsClientInit with
      responses := [("m", ⟨"", false⟩)]
      handlers := [("m", ⟨true, true⟩)] }

/-- Witness for C6 (amended) on a concrete two-chunk streaming run. -/
theorem c6_fulltext_is_chunk_concat_witness :
    assocFind "m" c6WsState.responses = some ⟨"", false⟩ ∧
    assocFind "m" c6WsState.handlers = some ⟨true, true⟩ ∧
    (⟨true, true⟩ : WSHandlerEntry).hasUpdate = true ∧
    completeEventsOk "m" (⟨"", false⟩ : WSResponseEntry).content
      (wsProcessAll c6WsState
        [WSInMessage.agentResponse "m" "He", WSInMessage.agentResponse "m" "llo",
          WSInMessage.agentResponseComplete "m"]).2 :=
  ⟨by decide, by decide, rfl,
    c6_fulltext_is_chunk_concat.1
      [WSInMessage.agentResponse "m" "He", WSInMessage.agentResponse "m" "llo",
        WSInMessage.agentResponseComplete "m"]
      c6WsState "m" ⟨"", false⟩ ⟨true, true⟩ (by decide) (by decide) rfl⟩
